import Mathlib

/-
Verification of the LWJGL OpenGL ES binding stub
`org_lwjgl_opengles_NVViewportSwizzle.c`.

The file under study is a single machine-generated JNI forwarder:

  typedef void (APIENTRY *glViewportSwizzleNVPROC) (jint, jint, jint, jint, jint);

  JNIEXPORT void JNICALL Java_org_lwjgl_opengles_NVViewportSwizzle_glViewportSwizzleNV
      (JNIEnv *__env, jclass clazz,
       jint index, jint swizzlex, jint swizzley, jint swizzlez, jint swizzlew) {
      glViewportSwizzleNVPROC glViewportSwizzleNV =
          (glViewportSwizzleNVPROC)tlsGetFunction(780);
      UNUSED_PARAM(clazz)
      glViewportSwizzleNV(index, swizzlex, swizzley, swizzlez, swizzlew);
  }

We embed the forwarder as a pure function from the calling thread's dispatch
table (the semantics of `tlsGetFunction` on that thread) and its formal
parameters to the list of observable events of one invocation.  The event
vocabulary deliberately includes behaviours the stub could in principle
exhibit (reporting an error, writing to the dispatch table, calling back
into the JNI environment) so that their absence is a non-vacuous theorem.
Invoking a null pointer is undefined behaviour in C; the embedding records
it as the distinguished event `Event.ub`.
-/

set_option linter.unusedVariables false

namespace LWJGL

/-- A native function-pointer value; `none` models the C NULL pointer,
`some a` a non-null address `a`. -/
abbrev FnPtr := Option Nat

/-- Observable events of one forwarder invocation.  `lookup` is a read of
the thread-local dispatch table, `invoke` a native call through a non-null
pointer with its argument list, `ub` the undefined behaviour of calling a
null pointer.  `errorReport`, `tableWrite` and `jniCall` are behaviours the
stub never performs; they are in the vocabulary so that their absence can be
stated. -/
inductive Event where
  | lookup (slot : Nat) (result : FnPtr)
  | invoke (fn : Nat) (args : List Int)
  | ub
  | errorReport (msg : String)
  | tableWrite (slot : Nat) (ptr : FnPtr)
  | jniCall (name : String)
  deriving DecidableEq

/-- Modelled from the spec: `tlsGetFunction` itself is not part of the
provided source (only its call site is); per the spec it is a constant-time
read of the calling thread's dispatch table at the given index. -/
def tlsGetFunction (tls : Nat → FnPtr) (i : Nat) : FnPtr := tls i

/-- Embedding of the forwarder
`Java_org_lwjgl_opengles_NVViewportSwizzle_glViewportSwizzleNV` (lines
13-17 of the C source).  `tls` is the calling thread's dispatch table,
`env` and `clazz` are the opaque JNIEnv and jclass handles.  The body
mirrors the C body: one `tlsGetFunction(780)` lookup, then an unconditional
call through the fetched pointer; the `match` is C's call semantics (a call
through NULL is undefined behaviour), not a branch in the stub. -/
def Java_org_lwjgl_opengles_NVViewportSwizzle_glViewportSwizzleNV
    (tls : Nat → FnPtr) (env clazz : Nat)
    (index swizzlex swizzley swizzlez swizzlew : Int) : List Event :=
  let glViewportSwizzleNV : FnPtr := tlsGetFunction tls 780
  Event.lookup 780 glViewportSwizzleNV ::
    match glViewportSwizzleNV with
    | some fn => [Event.invoke fn [index, swizzlex, swizzley, swizzlez, swizzlew]]
    | none => [Event.ub]

/-- The effect of an event on a dispatch table: only `tableWrite` changes
it; every other event leaves it unchanged. -/
def applyEvent (t : Nat → FnPtr) : Event → (Nat → FnPtr)
  | Event.tableWrite s p => fun i => if i = s then p else t i
  | _ => t

/-- The effect of a whole event trace on a dispatch table. -/
def applyEvents (t : Nat → FnPtr) (es : List Event) : Nat → FnPtr :=
  es.foldl applyEvent t

end LWJGL

namespace LWJGL

/-- C1: a forwarder invocation whose dispatch-table slot 780 resolved to a
non-null pointer `fn` invokes `fn` with exactly the five given 32-bit
integer arguments, in order, with no truncation, widening or reordering
(the trace is exactly the lookup followed by that one native call). -/
theorem C1_forwards_args_exactly (tls : Nat → FnPtr) (env clazz : Nat)
    (index swizzlex swizzley swizzlez swizzlew : Int) (fn : Nat)
    (h : tls 780 = some fn) :
    Java_org_lwjgl_opengles_NVViewportSwizzle_glViewportSwizzleNV
        tls env clazz index swizzlex swizzley swizzlez swizzlew =
      [Event.lookup 780 (some fn),
       Event.invoke fn [index, swizzlex, swizzley, swizzlez, swizzlew]] := by
  simp [Java_org_lwjgl_opengles_NVViewportSwizzle_glViewportSwizzleNV,
    tlsGetFunction, h]

/-- C1 witness: the scenario of the spec, with the slot resolved to the
concrete address 7 and arguments (0, 1, 0, 0, 1). -/
theorem C1_forwards_args_exactly_witness :
    Java_org_lwjgl_opengles_NVViewportSwizzle_glViewportSwizzleNV
        (fun i => if i = 780 then some 7 else none) 0 0 0 1 0 0 1 =
      [Event.lookup 780 (some 7), Event.invoke 7 [0, 1, 0, 0, 1]] :=
  C1_forwards_args_exactly (fun i => if i = 780 then some 7 else none)
    0 0 0 1 0 0 1 7 (by simp)

/-- C2: on every invocation the pointer the forwarder invokes comes from the
dispatch-table lookup at the fixed index 780 and from nowhere else: every
lookup event in the trace is at slot 780 (independent of the argument
values) and reports the current table entry, and every invoked pointer is
exactly that entry. -/
theorem C2_pointer_from_slot_780 (tls : Nat → FnPtr) (env clazz : Nat)
    (index swizzlex swizzley swizzlez swizzlew : Int) :
    (∀ s r, Event.lookup s r ∈
        Java_org_lwjgl_opengles_NVViewportSwizzle_glViewportSwizzleNV
          tls env clazz index swizzlex swizzley swizzlez swizzlew →
      s = 780 ∧ r = tlsGetFunction tls 780) ∧
    (∀ fn args, Event.invoke fn args ∈
        Java_org_lwjgl_opengles_NVViewportSwizzle_glViewportSwizzleNV
          tls env clazz index swizzlex swizzley swizzlez swizzlew →
      tlsGetFunction tls 780 = some fn) := by
  unfold Java_org_lwjgl_opengles_NVViewportSwizzle_glViewportSwizzleNV
    tlsGetFunction
  cases h : tls 780 <;> simp [h]

/-- C2 witness: concrete table with slot 780 resolved to address 5. -/
theorem C2_pointer_from_slot_780_witness :
    tlsGetFunction (fun i => if i = 780 then some 5 else none) 780 = some 5 :=
  (C2_pointer_from_slot_780 (fun i => if i = 780 then some 5 else none)
      0 0 2 3 4 5 6).2 5 [2, 3, 4, 5, 6] (by simp
        [Java_org_lwjgl_opengles_NVViewportSwizzle_glViewportSwizzleNV,
         tlsGetFunction])

/-- C3: the forwarder performs no null check and reports no error: the
trace never contains an error report; the invocation is well-defined (no
undefined-behaviour event) exactly when slot 780 resolved non-null; when
the slot is null the call proceeds into undefined behaviour (`Event.ub`)
rather than a detected failure; and when the slot is non-null the native
call happens unconditionally. -/
theorem C3_no_null_check_no_error (tls : Nat → FnPtr) (env clazz : Nat)
    (index swizzlex swizzley swizzlez swizzlew : Int) :
    (∀ m, Event.errorReport m ∉
        Java_org_lwjgl_opengles_NVViewportSwizzle_glViewportSwizzleNV
          tls env clazz index swizzlex swizzley swizzlez swizzlew) ∧
    ((∃ fn, tls 780 = some fn) ↔ Event.ub ∉
        Java_org_lwjgl_opengles_NVViewportSwizzle_glViewportSwizzleNV
          tls env clazz index swizzlex swizzley swizzlez swizzlew) ∧
    (∀ fn, tls 780 = some fn →
      Event.invoke fn [index, swizzlex, swizzley, swizzlez, swizzlew] ∈
        Java_org_lwjgl_opengles_NVViewportSwizzle_glViewportSwizzleNV
          tls env clazz index swizzlex swizzley swizzlez swizzlew) := by
  unfold Java_org_lwjgl_opengles_NVViewportSwizzle_glViewportSwizzleNV
    tlsGetFunction
  cases h : tls 780 <;> simp [h]

/-- C3 witness: with slot 780 null the trace contains the
undefined-behaviour event. -/
theorem C3_no_null_check_no_error_witness :
    Event.ub ∈
      Java_org_lwjgl_opengles_NVViewportSwizzle_glViewportSwizzleNV
        (fun _ => none) 0 0 0 0 0 0 0 := by
  have h := (C3_no_null_check_no_error (fun _ => none) 0 0 0 0 0 0 0).2.1
  by_contra hub
  rcases h.mpr hub with ⟨fn, hfn⟩
  exact Option.noConfusion hfn

/-- C4: the forwarder is a stateless single-step adapter: when slot 780 is
non-null the whole trace is the lookup followed by exactly one native call
and nothing else, it writes nothing to the dispatch table, and replaying
the trace's effects leaves the table pointwise unchanged. -/
theorem C4_stateless_single_call (tls : Nat → FnPtr) (env clazz : Nat)
    (index swizzlex swizzley swizzlez swizzlew : Int) (fn : Nat)
    (h : tls 780 = some fn) :
    Java_org_lwjgl_opengles_NVViewportSwizzle_glViewportSwizzleNV
        tls env clazz index swizzlex swizzley swizzlez swizzlew =
      [Event.lookup 780 (some fn),
       Event.invoke fn [index, swizzlex, swizzley, swizzlez, swizzlew]] ∧
    (∀ s p, Event.tableWrite s p ∉
        Java_org_lwjgl_opengles_NVViewportSwizzle_glViewportSwizzleNV
          tls env clazz index swizzlex swizzley swizzlez swizzlew) ∧
    applyEvents tls
        (Java_org_lwjgl_opengles_NVViewportSwizzle_glViewportSwizzleNV
          tls env clazz index swizzlex swizzley swizzlez swizzlew) = tls := by
  unfold Java_org_lwjgl_opengles_NVViewportSwizzle_glViewportSwizzleNV
    tlsGetFunction
  refine ⟨by simp [h], by simp [h], ?_⟩
  simp [h, applyEvents, applyEvent, List.foldl]

/-- C4 witness: concrete table, slot 780 at address 9; the trace is the
lookup plus one call and replaying it does not change the table. -/
theorem C4_stateless_single_call_witness :
    Java_org_lwjgl_opengles_NVViewportSwizzle_glViewportSwizzleNV
        (fun _ => some 9) 0 0 1 2 3 4 5 =
      [Event.lookup 780 (some 9), Event.invoke 9 [1, 2, 3, 4, 5]] ∧
    applyEvents (fun _ => some 9)
        (Java_org_lwjgl_opengles_NVViewportSwizzle_glViewportSwizzleNV
          (fun _ => some 9) 0 0 1 2 3 4 5) = fun _ => some 9 := by
  have h := C4_stateless_single_call (fun _ => some 9) 0 0 1 2 3 4 5 9 rfl
  exact ⟨h.1, h.2.2⟩

/-- A native C type occurring in the stub's signatures. -/
inductive CType where
  | jint
  deriving DecidableEq

/-- Bit width of a native C type (jint is a 32-bit integer). -/
def CType.bits : CType → Nat
  | CType.jint => 32

/-- Signedness of a native C type (jint is signed). -/
def CType.isSigned : CType → Bool
  | CType.jint => true

/-- Calling conventions occurring in the stub. -/
inductive CallConv where
  | apientry
  | jnicall
  deriving DecidableEq

/-- A native function signature: argument types, whether the function
returns void, and the calling convention. -/
structure NativeSignature where
  args : List CType
  returnsVoid : Bool
  conv : CallConv
  deriving DecidableEq

/-- Signature of the outbound native call, from the typedef on line 9 of
the C source: `typedef void (APIENTRY *glViewportSwizzleNVPROC)
(jint, jint, jint, jint, jint)`. -/
def glViewportSwizzleNVPROC : NativeSignature :=
  { args := [CType.jint, CType.jint, CType.jint, CType.jint, CType.jint]
    returnsVoid := true
    conv := CallConv.apientry }

/-- Signature of the inbound JNI entry point, from line 13 of the C source
(the context-implicit JNIEnv and jclass parameters aside): five jint
arguments, void return, JNICALL convention. -/
def forwarderInboundSig : NativeSignature :=
  { args := [CType.jint, CType.jint, CType.jint, CType.jint, CType.jint]
    returnsVoid := true
    conv := CallConv.jnicall }

/-- The namespace part of the inbound entry point's name: the mangled
fully-qualified binding class `org.lwjgl.opengles.NVViewportSwizzle`. -/
def bindingClassMangledName : String := "Java_org_lwjgl_opengles_NVViewportSwizzle"

/-- The extension function's name. -/
def extensionFunctionName : String := "glViewportSwizzleNV"

/-- The inbound entry point's name, from line 13 of the C source. -/
def forwarderEntryName : String :=
  "Java_org_lwjgl_opengles_NVViewportSwizzle_glViewportSwizzleNV"

/-- C5: the inbound entry point is named by the convention
Namespace_ExtensionFunctionName, takes exactly five signed 32-bit integer
arguments and returns void; the outbound call has the same five signed
32-bit arguments in the same order, no return value, and the APIENTRY
calling convention. -/
theorem C5_signature_and_naming :
    forwarderEntryName = bindingClassMangledName ++ "_" ++ extensionFunctionName ∧
    forwarderInboundSig.args.length = 5 ∧
    (∀ t ∈ forwarderInboundSig.args, t.bits = 32 ∧ t.isSigned = true) ∧
    forwarderInboundSig.returnsVoid = true ∧
    glViewportSwizzleNVPROC.args = forwarderInboundSig.args ∧
    glViewportSwizzleNVPROC.returnsVoid = true ∧
    glViewportSwizzleNVPROC.conv = CallConv.apientry := by
  refine ⟨rfl, rfl, ?_, rfl, rfl, rfl, rfl⟩
  intro t ht
  cases t
  exact ⟨rfl, rfl⟩

/-- C5 witness: the first inbound argument type is a signed 32-bit
integer. -/
theorem C5_signature_and_naming_witness :
    CType.bits CType.jint = 32 ∧ CType.isSigned CType.jint = true :=
  C5_signature_and_naming.2.2.1 CType.jint
    (by simp [forwarderInboundSig])

/-- Keeps only the dispatch-table lookup events of a trace. -/
def lookupEvents (es : List Event) : List Event :=
  es.filter fun e =>
    match e with
    | Event.lookup _ _ => true
    | _ => false

/-- C9: every invocation performs exactly one dispatch-table lookup, at the
constant slot index 780, and the value it fetches (and hence the pointer it
invokes) is the calling thread's current table entry at 780 at the time of
the call — nothing is cached across invocations. -/
theorem C9_single_fresh_lookup_at_780 (tls : Nat → FnPtr) (env clazz : Nat)
    (index swizzlex swizzley swizzlez swizzlew : Int) :
    lookupEvents
        (Java_org_lwjgl_opengles_NVViewportSwizzle_glViewportSwizzleNV
          tls env clazz index swizzlex swizzley swizzlez swizzlew) =
      [Event.lookup 780 (tlsGetFunction tls 780)] ∧
    (∀ fn args, Event.invoke fn args ∈
        Java_org_lwjgl_opengles_NVViewportSwizzle_glViewportSwizzleNV
          tls env clazz index swizzlex swizzley swizzlez swizzlew →
      tls 780 = some fn) := by
  unfold Java_org_lwjgl_opengles_NVViewportSwizzle_glViewportSwizzleNV
    tlsGetFunction lookupEvents
  cases h : tls 780 <;> simp [h, List.filter]

/-- C9 witness: two invocations on tables that differ at slot 780 each
fetch their own table's current entry. -/
theorem C9_single_fresh_lookup_at_780_witness :
    lookupEvents
        (Java_org_lwjgl_opengles_NVViewportSwizzle_glViewportSwizzleNV
          (fun _ => some 11) 0 0 1 2 3 4 5) =
      [Event.lookup 780 (some 11)] ∧
    lookupEvents
        (Java_org_lwjgl_opengles_NVViewportSwizzle_glViewportSwizzleNV
          (fun _ => some 12) 0 0 1 2 3 4 5) =
      [Event.lookup 780 (some 12)] :=
  ⟨(C9_single_fresh_lookup_at_780 (fun _ => some 11) 0 0 1 2 3 4 5).1,
   (C9_single_fresh_lookup_at_780 (fun _ => some 12) 0 0 1 2 3 4 5).1⟩

/-- C10: the forwarder's behaviour is independent of its JNIEnv and jclass
parameters: any two invocations with the same thread table and the same
five jint arguments produce identical traces whatever `env` and `clazz`
are, and no JNI environment call ever appears in a trace. -/
theorem C10_env_clazz_independent (tls : Nat → FnPtr)
    (env env2 clazz clazz2 : Nat)
    (index swizzlex swizzley swizzlez swizzlew : Int) :
    Java_org_lwjgl_opengles_NVViewportSwizzle_glViewportSwizzleNV
        tls env clazz index swizzlex swizzley swizzlez swizzlew =
      Java_org_lwjgl_opengles_NVViewportSwizzle_glViewportSwizzleNV
        tls env2 clazz2 index swizzlex swizzley swizzlez swizzlew ∧
    (∀ n, Event.jniCall n ∉
        Java_org_lwjgl_opengles_NVViewportSwizzle_glViewportSwizzleNV
          tls env clazz index swizzlex swizzley swizzlez swizzlew) := by
  unfold Java_org_lwjgl_opengles_NVViewportSwizzle_glViewportSwizzleNV
    tlsGetFunction
  cases h : tls 780 <;> simp [h]

/-- C10 witness: same table and arguments, different env and clazz handles,
identical traces. -/
theorem C10_env_clazz_independent_witness :
    Java_org_lwjgl_opengles_NVViewportSwizzle_glViewportSwizzleNV
        (fun _ => some 3) 1 2 0 1 0 0 1 =
      Java_org_lwjgl_opengles_NVViewportSwizzle_glViewportSwizzleNV
        (fun _ => some 3) 8 9 0 1 0 0 1 :=
  (C10_env_clazz_independent (fun _ => some 3) 1 8 2 9 0 1 0 0 1).1

/-- Modelled from the spec: an ExtensionSlot of the Dispatch Table
Registry, whose implementation is not in the provided source: index, symbol
name, and the resolved pointer (null when the driver does not export the
symbol). -/
structure ExtensionSlot where
  index : Nat
  name : String
  resolved : FnPtr
  deriving DecidableEq

/-- Modelled from the spec: a DispatchTable is an ordered sequence of
extension slots owned by one context. -/
structure DispatchTable where
  slots : List ExtensionSlot
  deriving DecidableEq

/-- A driver's symbol-lookup facility: maps a symbol name to its exported
address, or none when the driver does not export it. -/
abbrev Driver := String → FnPtr

/-- Builds the slot list for the names starting at slot index `k`,
resolving each name against the driver. -/
def buildSlots (driver : Driver) : Nat → List String → List ExtensionSlot
  | _, [] => []
  | k, n :: ns => ⟨k, n, driver n⟩ :: buildSlots driver (k + 1) ns

/-- Modelled from the spec: `initialize(context)` queries the driver's
symbol-resolution facility with every known slot's symbol name and stores
each result (possibly null) in that slot's `resolved` field; no error is
raised for missing extensions. -/
def initTable (driver : Driver) (names : List String) : DispatchTable :=
  ⟨buildSlots driver 0 names⟩

/-- Modelled from the spec: `get(index)` is a constant-time lookup by
index, failing with an out-of-range condition only when the index exceeds
the table's slot count. -/
def DispatchTable.get (t : DispatchTable) (i : Nat) : Except String FnPtr :=
  match t.slots.get? i with
  | some s => Except.ok s.resolved
  | none => Except.error "index out of range"

/-- Operations on a context's registry after creation: re-running
initialization, or a pure `get` query. -/
inductive RegOp where
  | init
  | getq (i : Nat)

/-- One registry operation on a context's state (`none` = table not yet
allocated).  `init` allocates and populates the table; `get` observes it
and changes nothing. -/
def runOp (driver : Driver) (names : List String)
    (st : Option DispatchTable) : RegOp → Option DispatchTable
  | RegOp.init => some (initTable driver names)
  | RegOp.getq _ => st

/-- Runs a sequence of registry operations. -/
def runOps (driver : Driver) (names : List String)
    (st : Option DispatchTable) (ops : List RegOp) : Option DispatchTable :=
  ops.foldl (runOp driver names) st

/-- Every slot built by `buildSlots` carries the driver's resolution of its
own name. -/
theorem buildSlots_resolved (driver : Driver) :
    ∀ (names : List String) (k : Nat) (s : ExtensionSlot),
      s ∈ buildSlots driver k names → s.resolved = driver s.name := by
  intro names
  induction names with
  | nil => intro k s hs; simp [buildSlots] at hs
  | cons n ns ih =>
    intro k s hs
    simp only [buildSlots, List.mem_cons] at hs
    rcases hs with h | h
    · subst h; rfl
    · exact ih (k + 1) s h

/-- Indexing into `buildSlots`: the i-th slot exists exactly when `i` is in
range, and then holds index `k + i`, the i-th name, and the driver's
resolution of it. -/
theorem buildSlots_get? (driver : Driver) :
    ∀ (names : List String) (k i : Nat),
      (buildSlots driver k names).get? i =
        (names.get? i).map fun n => ⟨k + i, n, driver n⟩ := by
  intro names
  induction names with
  | nil => intro k i; simp [buildSlots]
  | cons n ns ih =>
    intro k i
    cases i with
    | zero => simp [buildSlots]
    | succ j =>
      simp only [buildSlots, List.get?_cons_succ, ih (k + 1) j]
      cases ns.get? j <;> simp [Nat.add_comm, Nat.add_assoc, Nat.add_left_comm]

/-- `buildSlots` produces one slot per name. -/
theorem buildSlots_length (driver : Driver) :
    ∀ (names : List String) (k : Nat),
      (buildSlots driver k names).length = names.length := by
  intro names
  induction names with
  | nil => intro k; rfl
  | cons n ns ih => intro k; simp [buildSlots, ih (k + 1)]

/-- C6: once a context's table has been populated by initialization, no
subsequent registry operation changes any slot's resolved pointer for the
lifetime of the context (with the context's driver fixed), and a slot's
resolved pointer is null exactly when the driver does not export its
symbol (the extension is unsupported on that context). -/
theorem C6_resolved_immutable_after_init (driver : Driver)
    (names : List String) (ops : List RegOp) :
    runOps driver names (some (initTable driver names)) ops =
      some (initTable driver names) ∧
    (∀ s ∈ (initTable driver names).slots,
      (s.resolved = none ↔ driver s.name = none)) := by
  constructor
  · induction ops with
    | nil => rfl
    | cons op rest ih =>
      cases op with
      | init => exact ih
      | getq i => exact ih
  · intro s hs
    rw [buildSlots_resolved driver names 0 s hs]

/-- C6 witness: a concrete context whose driver exports one of two symbols;
after a get, a re-init and another get the table is unchanged, and the
unexported slot is null. -/
theorem C6_resolved_immutable_after_init_witness :
    runOps (fun n => if n = "glViewportSwizzleNV" then some 7 else none)
        ["glViewportSwizzleNV", "glDummyMissing"]
        (some (initTable
          (fun n => if n = "glViewportSwizzleNV" then some 7 else none)
          ["glViewportSwizzleNV", "glDummyMissing"]))
        [RegOp.getq 0, RegOp.init, RegOp.getq 1] =
      some (initTable
        (fun n => if n = "glViewportSwizzleNV" then some 7 else none)
        ["glViewportSwizzleNV", "glDummyMissing"]) ∧
    (((⟨1, "glDummyMissing", none⟩ : ExtensionSlot).resolved = none) ↔
      (fun n => if n = "glViewportSwizzleNV" then some 7 else none)
        "glDummyMissing" = (none : FnPtr)) :=
  ⟨(C6_resolved_immutable_after_init
      (fun n => if n = "glViewportSwizzleNV" then some 7 else none)
      ["glViewportSwizzleNV", "glDummyMissing"]
      [RegOp.getq 0, RegOp.init, RegOp.getq 1]).1,
   (C6_resolved_immutable_after_init
      (fun n => if n = "glViewportSwizzleNV" then some 7 else none)
      ["glViewportSwizzleNV", "glDummyMissing"]
      [RegOp.getq 0, RegOp.init, RegOp.getq 1]).2
      ⟨1, "glDummyMissing", none⟩ (by simp [initTable, buildSlots])⟩

/-- C7: initialization is idempotent with respect to the driver: running
the initialization operation a second time on the same context, with the
driver's exported-symbol mapping unchanged, yields a state identical to the
one after the first initialization, every slot's resolved pointer equal. -/
theorem C7_init_idempotent (driver : Driver) (names : List String)
    (st : Option DispatchTable) :
    runOps driver names st [RegOp.init, RegOp.init] =
      runOps driver names st [RegOp.init] ∧
    (∀ t t2, runOps driver names st [RegOp.init] = some t →
      runOps driver names st [RegOp.init, RegOp.init] = some t2 →
      ∀ i, (t.slots.get? i).map ExtensionSlot.resolved =
        (t2.slots.get? i).map ExtensionSlot.resolved) := by
  refine ⟨rfl, ?_⟩
  intro t t2 h1 h2 i
  simp only [runOps, List.foldl, runOp] at h1 h2
  rw [Option.some_inj] at h1 h2
  rw [← h1, ← h2]

/-- C7 witness: a concrete context initialized twice equals it initialized
once. -/
theorem C7_init_idempotent_witness :
    runOps (fun _ => some 3) ["glViewportSwizzleNV"] none
        [RegOp.init, RegOp.init] =
      runOps (fun _ => some 3) ["glViewportSwizzleNV"] none [RegOp.init] :=
  (C7_init_idempotent (fun _ => some 3) ["glViewportSwizzleNV"] none).1

/-- C8: after initialization the table has one slot per known name;
`get(i)` for every in-range index deterministically returns the stored
pointer — exactly the driver's resolution of the i-th symbol, null when the
driver does not export it — and raises no error; `get` fails with the
out-of-range condition precisely when the index is at or beyond the slot
count; and initialization itself signals nothing for missing extensions
(absence is the stored null). -/
theorem C8_get_after_init (driver : Driver) (names : List String) (i : Nat) :
    (initTable driver names).slots.length = names.length ∧
    (∀ h : i < names.length,
      (initTable driver names).get i =
        Except.ok (driver (names.get ⟨i, h⟩))) ∧
    (names.length ≤ i →
      (initTable driver names).get i = Except.error "index out of range") := by
  refine ⟨buildSlots_length driver names 0, ?_, ?_⟩
  · intro h
    unfold DispatchTable.get initTable
    rw [buildSlots_get? driver names 0 i, List.get?_eq_get h]
    rfl
  · intro h
    unfold DispatchTable.get initTable
    rw [buildSlots_get? driver names 0 i, List.get?_eq_none.mpr h]
    rfl

/-- C8 witness: a two-name table where the driver exports only the first
symbol: get 0 is the non-null pointer, get 1 is null (not an error), get 2
is the out-of-range error. -/
theorem C8_get_after_init_witness :
    (initTable (fun n => if n = "glViewportSwizzleNV" then some 7 else none)
        ["glViewportSwizzleNV", "glDummyMissing"]).get 0 =
      Except.ok (some 7) ∧
    (initTable (fun n => if n = "glViewportSwizzleNV" then some 7 else none)
        ["glViewportSwizzleNV", "glDummyMissing"]).get 1 =
      Except.ok none ∧
    (initTable (fun n => if n = "glViewportSwizzleNV" then some 7 else none)
        ["glViewportSwizzleNV", "glDummyMissing"]).get 2 =
      Except.error "index out of range" := by
  refine ⟨?_, ?_, ?_⟩
  · have h := ((C8_get_after_init
      (fun n => if n = "glViewportSwizzleNV" then some 7 else none)
      ["glViewportSwizzleNV", "glDummyMissing"] 0).2.1 (by decide))
    simpa using h
  · have h := ((C8_get_after_init
      (fun n => if n = "glViewportSwizzleNV" then some 7 else none)
      ["glViewportSwizzleNV", "glDummyMissing"] 1).2.1 (by decide))
    simpa using h
  · exact ((C8_get_after_init
      (fun n => if n = "glViewportSwizzleNV" then some 7 else none)
      ["glViewportSwizzleNV", "glDummyMissing"] 2).2.2 (by decide))

end LWJGL
